import Mathlib

/-!
Shallow embedding of the WebSocket connection manager (`WebSocketClient` in
the repository source): the five-state connection lifecycle, the event
notifications, and the reconnection scheduler with its single pending timer.

The transport (the raw `WebSocket` object) is opaque: the only facts about
it the manager code uses are whether a handle is currently owned (`ws`
null or not) and whether its constructor / its `send` throw.  Those two
failure modes are passed in as explicit booleans.  The host timer facility
is modelled by a list of live one-shot timers (`liveTimers`) together with
a fresh-id counter, so that `setTimeout` / `clearTimeout` ownership is
explicit and the "at most one pending timer" property is a real statement.

Every method of the class becomes a total function
`WebSocketClient → ... → WebSocketClient × List WSEvent` returning the
updated fields and the events emitted, in emission order.
-/

namespace WSClient

/-- States of the connection state machine (enum `WebSocketState`). -/
inductive WebSocketState
  | Idle
  | Connecting
  | Connected
  | Reconnecting
  | Disconnecting
deriving DecidableEq, Repr

/-- Reconnection policy (interface `ReconnectOptions`): maximum number of
retries, base delay in ms, and whether the delay grows with the attempt. -/
structure ReconnectOptions where
  retries : Nat
  delay : Nat
  increaseDelay : Bool
deriving DecidableEq, Repr

/-- Events emitted through the event emitter (enum `WebSocketEvents`),
with the payloads the source attaches to them. -/
inductive WSEvent
  | Connected
  | Disconnected (wasClean : Bool) (code : Nat)
  | Message (data : String)
  | Error
  | Reconnecting (attempt : Nat)
  | Reconnected
deriving DecidableEq, Repr

/-- A live one-shot timer owned by the host timer facility: its handle and
the delay it was scheduled with. -/
structure PendingTimer where
  id : Nat
  delayMs : Nat
deriving DecidableEq, Repr

/-- The fields of class `WebSocketClient`, plus the host-side bookkeeping
(`nextWsId`, `liveTimers`, `nextTimerId`) needed to model transport-handle
identity and the timer facility. -/
structure WebSocketClient where
  url : String
  ws : Option Nat
  state : WebSocketState
  reconnectOptions : Option ReconnectOptions
  reconnectAttempts : Nat
  reconnectTimeoutId : Option Nat
  isReconnectingAttempt : Bool
  nextWsId : Nat
  liveTimers : List PendingTimer
  nextTimerId : Nat
deriving DecidableEq, Repr

/-- Constructor: `new WebSocketClient(url, reconnectOptions?)`. -/
def init (url : String) (opts : Option ReconnectOptions) : WebSocketClient :=
  { url := url
    ws := none
    state := WebSocketState.Idle
    reconnectOptions := opts
    reconnectAttempts := 0
    reconnectTimeoutId := none
    isReconnectingAttempt := false
    nextWsId := 0
    liveTimers := []
    nextTimerId := 0 }

/-- Private `clearReconnectTimer()`: if a timer handle is held, cancel the
timer, drop the handle and reset the reconnect flag. -/
def clearReconnectTimer (c : WebSocketClient) : WebSocketClient :=
  match c.reconnectTimeoutId with
  | some tid =>
      { c with liveTimers := c.liveTimers.filter (fun t => t.id != tid)
               reconnectTimeoutId := none
               isReconnectingAttempt := false }
  | none => c

/-- Private `scheduleReconnect()`: guard (no options / timer already
pending / disconnecting), give-up path at max attempts, otherwise
increment the counter, compute the delay, move to Reconnecting, set the
flag, emit Reconnecting and start the one-shot timer. -/
def scheduleReconnect (c : WebSocketClient) : WebSocketClient × List WSEvent :=
  if c.reconnectOptions.isNone ∨ c.reconnectTimeoutId.isSome
      ∨ c.state = WebSocketState.Disconnecting then
    ({ c with isReconnectingAttempt := false }, [])
  else
    match c.reconnectOptions with
    | none => ({ c with isReconnectingAttempt := false }, [])
    | some opts =>
      if opts.retries ≤ c.reconnectAttempts then
        ({ c with reconnectAttempts := 0, isReconnectingAttempt := false }, [])
      else
        let attempts := c.reconnectAttempts + 1
        let currentDelay := if opts.increaseDelay then opts.delay * attempts else opts.delay
        ({ c with reconnectAttempts := attempts
                  state := WebSocketState.Reconnecting
                  isReconnectingAttempt := true
                  reconnectTimeoutId := some c.nextTimerId
                  liveTimers := c.liveTimers ++ [⟨c.nextTimerId, currentDelay⟩]
                  nextTimerId := c.nextTimerId + 1 },
         [WSEvent.Reconnecting attempts])

/-- Public `connect()`.  `ctorThrows` tells whether `new WebSocket(url)`
throws synchronously (a transport behaviour, external to the manager).
Guard against Connecting/Connected/Disconnecting; set Connecting; clear a
pending timer handle inline (without touching the reconnect flag); then
either own a fresh transport handle, or on a constructor throw fall back
to Idle, reset the flag, emit Error and invoke the retry scheduler. -/
def connect (c : WebSocketClient) (ctorThrows : Bool) : WebSocketClient × List WSEvent :=
  if c.state = WebSocketState.Connecting ∨ c.state = WebSocketState.Connected
      ∨ c.state = WebSocketState.Disconnecting then
    (c, [])
  else
    let c1 : WebSocketClient := { c with state := WebSocketState.Connecting }
    let c2 : WebSocketClient :=
      match c1.reconnectTimeoutId with
      | some tid =>
          { c1 with liveTimers := c1.liveTimers.filter (fun t => t.id != tid)
                    reconnectTimeoutId := none }
      | none => c1
    if ctorThrows then
      let c3 : WebSocketClient :=
        { c2 with state := WebSocketState.Idle, isReconnectingAttempt := false }
      let r := scheduleReconnect c3
      (r.1, WSEvent.Error :: r.2)
    else
      ({ c2 with ws := some c2.nextWsId, nextWsId := c2.nextWsId + 1 }, [])

/-- Public `disconnect()`: no-op (with a console warning) unless a
transport handle is owned and the state is neither Idle nor Disconnecting;
otherwise move to Disconnecting, reset the flag, clear the retry timer,
reset the attempt counter and request the transport close (the close
callback arrives later as a separate transport event). -/
def disconnect (c : WebSocketClient) : WebSocketClient × List WSEvent :=
  if c.ws.isNone ∨ c.state = WebSocketState.Idle
      ∨ c.state = WebSocketState.Disconnecting then
    (c, [])
  else
    let c1 : WebSocketClient :=
      { c with state := WebSocketState.Disconnecting, isReconnectingAttempt := false }
    let c2 := clearReconnectTimer c1
    ({ c2 with reconnectAttempts := 0 }, [])

/-- Public `sendMessage(data)`.  `sendThrows` tells whether the
transport's `send` throws (external transport behaviour).  No-op with a
warning unless Connected with a live handle; a throwing send is caught
and surfaced as one Error event with no state change. -/
def sendMessage (c : WebSocketClient) (sendThrows : Bool) : WebSocketClient × List WSEvent :=
  if ¬ (c.state = WebSocketState.Connected) ∨ c.ws.isNone then
    (c, [])
  else if sendThrows then
    (c, [WSEvent.Error])
  else
    (c, [])

/-- Transport `open` callback (`handleOpen`): record whether this attempt
was a reconnect, move to Connected, reset counter and flag, emit
Reconnected (when it was a reconnect) then Connected. -/
def handleOpen (c : WebSocketClient) : WebSocketClient × List WSEvent :=
  let wasReconnecting := c.isReconnectingAttempt
  let c1 : WebSocketClient :=
    { c with state := WebSocketState.Connected
             reconnectAttempts := 0
             isReconnectingAttempt := false }
  (c1, (if wasReconnecting then [WSEvent.Reconnected] else []) ++ [WSEvent.Connected])

/-- Transport `message` callback (`handleMessage`): re-emit the payload. -/
def handleMessage (c : WebSocketClient) (data : String) : WebSocketClient × List WSEvent :=
  (c, [WSEvent.Message data])

/-- Transport `close` callback (`handleClose`): on an intentional close
(state Disconnecting) drop the handle, go Idle, reset the flag and emit
Disconnected; on an unexpected close drop the handle, go Idle, emit
Disconnected, and when a retry policy exists and the previous state was
Connected/Connecting/Reconnecting invoke the retry scheduler, otherwise
reset the flag. -/
def handleClose (c : WebSocketClient) (wasClean : Bool) (code : Nat) :
    WebSocketClient × List WSEvent :=
  if c.state = WebSocketState.Disconnecting then
    ({ c with ws := none
              state := WebSocketState.Idle
              isReconnectingAttempt := false },
     [WSEvent.Disconnected wasClean code])
  else
    let previousState := c.state
    let c1 : WebSocketClient := { c with ws := none, state := WebSocketState.Idle }
    if c1.reconnectOptions.isSome ∧ (previousState = WebSocketState.Connected
        ∨ previousState = WebSocketState.Connecting
        ∨ previousState = WebSocketState.Reconnecting) then
      let r := scheduleReconnect c1
      (r.1, WSEvent.Disconnected wasClean code :: r.2)
    else
      ({ c1 with isReconnectingAttempt := false }, [WSEvent.Disconnected wasClean code])

/-- Transport `error` callback (`handleError`): emit Error, change
nothing; recovery is deferred to the close callback. -/
def handleError (c : WebSocketClient) : WebSocketClient × List WSEvent :=
  (c, [WSEvent.Error])

/-- The retry timer firing (the `setTimeout` callback in
`scheduleReconnect`): the host removes the fired one-shot timer, the
callback drops the handle, and then calls `connect()` if still
Reconnecting, otherwise just resets the flag.  A timer can only fire
while its handle is held, hence the match on `reconnectTimeoutId`. -/
def fireRetryTimer (c : WebSocketClient) (ctorThrows : Bool) :
    WebSocketClient × List WSEvent :=
  match c.reconnectTimeoutId with
  | none => (c, [])
  | some tid =>
      let c1 : WebSocketClient :=
        { c with liveTimers := c.liveTimers.filter (fun t => t.id != tid)
                 reconnectTimeoutId := none }
      if c1.state = WebSocketState.Reconnecting then
        connect c1 ctorThrows
      else
        ({ c1 with isReconnectingAttempt := false }, [])

/-- One step of the event-driven execution: a public command, a callback
from the currently owned transport, or the pending retry timer firing.
The booleans are the external transport behaviours (constructor throw,
send throw); transport callbacks require a currently owned handle, and
the timer can only fire while its handle is pending. -/
inductive Step : WebSocketClient → WebSocketClient → List WSEvent → Prop
  | connectStep (c : WebSocketClient) (b : Bool) :
      Step c (connect c b).1 (connect c b).2
  | disconnectStep (c : WebSocketClient) :
      Step c (disconnect c).1 (disconnect c).2
  | sendStep (c : WebSocketClient) (b : Bool) :
      Step c (sendMessage c b).1 (sendMessage c b).2
  | openStep (c : WebSocketClient) (h : c.ws.isSome = true) :
      Step c (handleOpen c).1 (handleOpen c).2
  | messageStep (c : WebSocketClient) (d : String) (h : c.ws.isSome = true) :
      Step c (handleMessage c d).1 (handleMessage c d).2
  | closeStep (c : WebSocketClient) (w : Bool) (k : Nat) (h : c.ws.isSome = true) :
      Step c (handleClose c w k).1 (handleClose c w k).2
  | errorStep (c : WebSocketClient) (h : c.ws.isSome = true) :
      Step c (handleError c).1 (handleError c).2
  | timerStep (c : WebSocketClient) (b : Bool) (h : c.reconnectTimeoutId.isSome = true) :
      Step c (fireRetryTimer c b).1 (fireRetryTimer c b).2

/-- Configurations reachable from a freshly constructed client. -/
inductive Reachable (url : String) (opts : Option ReconnectOptions) : WebSocketClient → Prop
  | init : Reachable url opts (init url opts)
  | step {c c' : WebSocketClient} {evs : List WSEvent} :
      Reachable url opts c → Step c c' evs → Reachable url opts c'

/-- The state/resource invariant of the manager: the transport handle is
owned exactly in the three active states; with no timer handle no live
timer exists; and a held timer handle means state Reconnecting, reconnect
flag set, and exactly that one live timer. -/
def Inv (c : WebSocketClient) : Prop :=
  (c.ws.isSome = true ↔ (c.state = WebSocketState.Connecting
      ∨ c.state = WebSocketState.Connected
      ∨ c.state = WebSocketState.Disconnecting)) ∧
  (c.reconnectTimeoutId = none → c.liveTimers = []) ∧
  (∀ tid, c.reconnectTimeoutId = some tid →
      c.state = WebSocketState.Reconnecting ∧ c.isReconnectingAttempt = true ∧
      ∃ d, c.liveTimers = [⟨tid, d⟩])

theorem inv_init (url : String) (opts : Option ReconnectOptions) : Inv (init url opts) := by
  refine ⟨?_, ?_, ?_⟩
  · simp [init]
  · intro _; rfl
  · intro tid h; simp [init] at h

theorem inv_scheduleReconnect (c : WebSocketClient)
    (hws : c.ws = none) (htid : c.reconnectTimeoutId = none) (ht : c.liveTimers = [])
    (hst : c.state ≠ WebSocketState.Connecting ∧ c.state ≠ WebSocketState.Connected
      ∧ c.state ≠ WebSocketState.Disconnecting) :
    Inv (scheduleReconnect c).1 := by
  unfold scheduleReconnect
  split
  · exact ⟨by simp [hws, hst.1, hst.2.1, hst.2.2], fun _ => ht, fun tid h => by
      have h' : c.reconnectTimeoutId = some tid := h
      rw [htid] at h'; exact absurd h' (by simp)⟩
  · split
    · exact ⟨by simp [hws, hst.1, hst.2.1, hst.2.2], fun _ => ht, fun tid h => by
        have h' : c.reconnectTimeoutId = some tid := h
        rw [htid] at h'; exact absurd h' (by simp)⟩
    · split
      · exact ⟨by simp [hws, hst.1, hst.2.1, hst.2.2], fun _ => ht, fun tid h => by
          have h' : c.reconnectTimeoutId = some tid := h
          rw [htid] at h'; exact absurd h' (by simp)⟩
      · rename_i hguard x opts heq hle
        refine ⟨by simp [hws], ?_, ?_⟩
        · intro h; simp at h
        · intro tid h
          have h' : some c.nextTimerId = some tid := h
          have h2' : c.nextTimerId = tid := by injection h'
          refine ⟨rfl, rfl,
            (if opts.increaseDelay = true then opts.delay * (c.reconnectAttempts + 1)
              else opts.delay), ?_⟩
          show c.liveTimers ++ [⟨c.nextTimerId, _⟩] = _
          rw [ht, h2']
          rfl

theorem inv_connect {c : WebSocketClient} (hc : Inv c) (b : Bool) :
    Inv (connect c b).1 := by
  obtain ⟨h1, h2, h3⟩ := hc
  unfold connect
  split
  · exact ⟨h1, h2, h3⟩
  · rename_i hguard
    push_neg at hguard
    have hws : c.ws = none := by
      cases hw : c.ws with
      | none => rfl
      | some v =>
          rcases h1.mp (by simp [hw]) with h | h | h
          · exact absurd h hguard.1
          · exact absurd h hguard.2.1
          · exact absurd h hguard.2.2
    cases htid : c.reconnectTimeoutId with
    | some tid =>
        obtain ⟨_, _, d, hd⟩ := h3 tid htid
        simp only [htid, hd]
        have hfilter : List.filter (fun t => t.id != tid) [(⟨tid, d⟩ : PendingTimer)] = [] := by
          simp [List.filter]
        cases b with
        | true =>
            simp only [if_pos rfl]
            refine inv_scheduleReconnect _ hws rfl ?_ (by exact ⟨by simp, by simp, by simp⟩)
            simp [hfilter]
        | false =>
            refine ⟨by simp, ?_, ?_⟩
            · intro _; exact hfilter
            · intro tid' h; simp at h
    | none =>
        have hlt : c.liveTimers = [] := h2 htid
        simp only [htid]
        cases b with
        | true =>
            simp only [if_pos rfl]
            exact inv_scheduleReconnect _ hws rfl hlt (by exact ⟨by simp, by simp, by simp⟩)
        | false =>
            refine ⟨by simp, ?_, ?_⟩
            · intro _; exact hlt
            · intro tid' h
              have h' : (none : Option Nat) = some tid' := h
              exact absurd h' (by simp)

theorem clearReconnectTimer_of_none (c : WebSocketClient)
    (h : c.reconnectTimeoutId = none) : clearReconnectTimer c = c := by
  unfold clearReconnectTimer
  rw [h]

theorem inv_disconnect {c : WebSocketClient} (hc : Inv c) : Inv (disconnect c).1 := by
  obtain ⟨h1, h2, h3⟩ := hc
  unfold disconnect
  split
  · exact ⟨h1, h2, h3⟩
  · rename_i hguard
    push_neg at hguard
    obtain ⟨hwsn, hnidle, hndis⟩ := hguard
    have hws : c.ws.isSome = true := by
      cases hw : c.ws with
      | none => exact absurd (by simp [hw]) hwsn
      | some v => simp
    have htid : c.reconnectTimeoutId = none := by
      cases ht : c.reconnectTimeoutId with
      | none => rfl
      | some tid =>
          obtain ⟨hst, _, _⟩ := h3 tid ht
          rcases h1.mp hws with h | h | h <;> rw [h] at hst <;> exact absurd hst (by simp)
    have hlt : c.liveTimers = [] := h2 htid
    dsimp only
    rw [clearReconnectTimer_of_none { c with state := WebSocketState.Disconnecting, isReconnectingAttempt := false } htid]
    refine ⟨by simp [hws], fun _ => hlt, ?_⟩
    intro tid h
    have h' : c.reconnectTimeoutId = some tid := h
    rw [htid] at h'; exact absurd h' (by simp)

theorem inv_sendMessage {c : WebSocketClient} (hc : Inv c) (b : Bool) :
    Inv (sendMessage c b).1 := by
  unfold sendMessage
  split
  · exact hc
  · split
    · exact hc
    · exact hc

theorem inv_handleOpen {c : WebSocketClient} (hc : Inv c) (hws : c.ws.isSome = true) :
    Inv (handleOpen c).1 := by
  obtain ⟨h1, h2, h3⟩ := hc
  have htid : c.reconnectTimeoutId = none := by
    cases ht : c.reconnectTimeoutId with
    | none => rfl
    | some tid =>
        obtain ⟨hst, _, _⟩ := h3 tid ht
        rcases h1.mp hws with h | h | h <;> rw [h] at hst <;> exact absurd hst (by simp)
  refine ⟨by simp [handleOpen, hws], fun _ => h2 htid, ?_⟩
  intro tid h
  have h' : c.reconnectTimeoutId = some tid := h
  rw [htid] at h'; exact absurd h' (by simp)

theorem inv_handleClose {c : WebSocketClient} (hc : Inv c) (hws : c.ws.isSome = true)
    (w : Bool) (k : Nat) : Inv (handleClose c w k).1 := by
  obtain ⟨h1, h2, h3⟩ := hc
  have htid : c.reconnectTimeoutId = none := by
    cases ht : c.reconnectTimeoutId with
    | none => rfl
    | some tid =>
        obtain ⟨hst, _, _⟩ := h3 tid ht
        rcases h1.mp hws with h | h | h <;> rw [h] at hst <;> exact absurd hst (by simp)
  have hlt : c.liveTimers = [] := h2 htid
  unfold handleClose
  split
  · refine ⟨by simp, fun _ => hlt, ?_⟩
    intro tid h
    have h' : c.reconnectTimeoutId = some tid := h
    rw [htid] at h'; exact absurd h' (by simp)
  · dsimp only
    split
    · exact inv_scheduleReconnect _ rfl htid hlt ⟨by simp, by simp, by simp⟩
    · refine ⟨by simp, fun _ => hlt, ?_⟩
      intro tid h
      have h' : c.reconnectTimeoutId = some tid := h
      rw [htid] at h'; exact absurd h' (by simp)

theorem inv_fireRetryTimer {c : WebSocketClient} (hc : Inv c) (b : Bool) :
    Inv (fireRetryTimer c b).1 := by
  obtain ⟨h1, h2, h3⟩ := hc
  unfold fireRetryTimer
  cases htid : c.reconnectTimeoutId with
  | none => exact ⟨h1, h2, h3⟩
  | some tid =>
      obtain ⟨hst, hfl, d, hd⟩ := h3 tid htid
      have hws : c.ws = none := by
        cases hw : c.ws with
        | none => rfl
        | some v =>
            rcases h1.mp (by simp [hw]) with h | h | h <;> rw [hst] at h <;>
              exact absurd h (by simp)
      have hfilter : c.liveTimers.filter (fun t => t.id != tid) = [] := by
        rw [hd]; simp [List.filter]
      simp only [htid]
      split
      · refine inv_connect ⟨?_, ?_, ?_⟩ b
        · simp [hws, hst]
        · intro _; exact hfilter
        · intro tid' h
          have h' : (none : Option Nat) = some tid' := h
          exact absurd h' (by simp)
      · rename_i hne
        exact absurd hst hne

theorem inv_step {c c' : WebSocketClient} {evs : List WSEvent}
    (hc : Inv c) (hs : Step c c' evs) : Inv c' := by
  cases hs with
  | connectStep b => exact inv_connect hc b
  | disconnectStep => exact inv_disconnect hc
  | sendStep b => exact inv_sendMessage hc b
  | openStep h => exact inv_handleOpen hc h
  | messageStep d h => exact hc
  | closeStep w k h => exact inv_handleClose hc h w k
  | errorStep h => exact hc
  | timerStep b h => exact inv_fireRetryTimer hc b

theorem reachable_inv {url : String} {opts : Option ReconnectOptions}
    {c : WebSocketClient} (h : Reachable url opts c) : Inv c := by
  induction h with
  | init => exact inv_init url opts
  | step _ hs ih => exact inv_step ih hs

/-- Result of `handleOpen` as an explicit record and event list: the
Reconnected event precedes Connected exactly when the reconnect flag was
set at open time. -/
theorem handleOpen_eq (c : WebSocketClient) :
    handleOpen c = ({ c with state := WebSocketState.Connected, reconnectAttempts := 0, isReconnectingAttempt := false },
      if c.isReconnectingAttempt = true then [WSEvent.Reconnected, WSEvent.Connected]
      else [WSEvent.Connected]) := by
  unfold handleOpen
  cases hf : c.isReconnectingAttempt <;> simp [hf]

/-- Result of `connect` with no pending timer, from a non-blocked state,
when the transport constructor succeeds. -/
theorem connect_ok (c : WebSocketClient)
    (h : ¬(c.state = WebSocketState.Connecting ∨ c.state = WebSocketState.Connected
      ∨ c.state = WebSocketState.Disconnecting))
    (htid : c.reconnectTimeoutId = none) :
    connect c false = ({ c with state := WebSocketState.Connecting, ws := some c.nextWsId, nextWsId := c.nextWsId + 1 }, []) := by
  unfold connect
  rw [if_neg h]
  simp only [htid]
  rfl

/-- Result of `connect` with a pending timer, from a non-blocked state,
when the transport constructor succeeds: the timer is cancelled inline
and the reconnect flag is left untouched. -/
theorem connect_ok_pending (c : WebSocketClient) (tid : Nat)
    (h : ¬(c.state = WebSocketState.Connecting ∨ c.state = WebSocketState.Connected
      ∨ c.state = WebSocketState.Disconnecting))
    (htid : c.reconnectTimeoutId = some tid) :
    connect c false = ({ c with liveTimers := c.liveTimers.filter (fun t => t.id != tid), reconnectTimeoutId := none, state := WebSocketState.Connecting, ws := some c.nextWsId, nextWsId := c.nextWsId + 1 }, []) := by
  unfold connect
  rw [if_neg h]
  simp only [htid]
  rfl

/-- The retry timer firing while still Reconnecting just re-enters
`connect` on the client with the fired timer removed. -/
theorem fireRetryTimer_eq (c : WebSocketClient) (tid : Nat) (b : Bool)
    (htid : c.reconnectTimeoutId = some tid)
    (hst : c.state = WebSocketState.Reconnecting) :
    fireRetryTimer c b = connect { c with liveTimers := c.liveTimers.filter (fun t => t.id != tid), reconnectTimeoutId := none } b := by
  unfold fireRetryTimer
  simp only [htid]
  split
  · rfl
  · rename_i hne; exact absurd hst hne

/-- The retry scheduler without a retry policy only resets the flag. -/
theorem scheduleReconnect_noopts (c : WebSocketClient)
    (h : c.reconnectOptions = none) :
    scheduleReconnect c = ({ c with isReconnectingAttempt := false }, []) := by
  unfold scheduleReconnect
  rw [if_pos (by simp [h])]

/-- The give-up path of the retry scheduler: at max attempts it resets the
counter and the flag and emits nothing. -/
theorem scheduleReconnect_giveup (c : WebSocketClient) (o : ReconnectOptions)
    (h1 : c.reconnectOptions = some o) (h2 : c.reconnectTimeoutId = none)
    (h3 : c.state ≠ WebSocketState.Disconnecting)
    (h4 : o.retries ≤ c.reconnectAttempts) :
    scheduleReconnect c = ({ c with reconnectAttempts := 0, isReconnectingAttempt := false }, []) := by
  unfold scheduleReconnect
  rw [if_neg (by simp [h1, h2, h3])]
  simp only [h1]
  rw [if_pos h4]

/-- The scheduling path of the retry scheduler: below max attempts it
increments the counter, moves to Reconnecting, sets the flag, emits
Reconnecting with the new attempt number and starts one timer with the
computed delay. -/
theorem scheduleReconnect_schedules (c : WebSocketClient) (o : ReconnectOptions)
    (h1 : c.reconnectOptions = some o) (h2 : c.reconnectTimeoutId = none)
    (h3 : c.state ≠ WebSocketState.Disconnecting)
    (h4 : c.reconnectAttempts < o.retries) :
    scheduleReconnect c = ({ c with reconnectAttempts := c.reconnectAttempts + 1, state := WebSocketState.Reconnecting, isReconnectingAttempt := true, reconnectTimeoutId := some c.nextTimerId, liveTimers := c.liveTimers ++ [⟨c.nextTimerId, if o.increaseDelay = true then o.delay * (c.reconnectAttempts + 1) else o.delay⟩], nextTimerId := c.nextTimerId + 1 },
      [WSEvent.Reconnecting (c.reconnectAttempts + 1)]) := by
  unfold scheduleReconnect
  rw [if_neg (by simp [h1, h2, h3])]
  simp only [h1]
  rw [if_neg (by omega)]

/-- The retry policy of the exhaustion scenario: maxAttempts 2, baseDelay
50 ms, no delay growth. -/
def optsA : ReconnectOptions := ⟨2, 50, false⟩

/-- A freshly constructed client with policy `optsA`. -/
def c0 : WebSocketClient := init "ws://localhost:1234" (some optsA)

/-- Scenario: first connect, constructor succeeds. -/
def t1 : WebSocketClient × List WSEvent := connect c0 false

/-- Scenario: the transport opens. -/
def t2 : WebSocketClient × List WSEvent := handleOpen t1.1

/-- Scenario: unexpected drop (unclean close, code 1006). -/
def t3 : WebSocketClient × List WSEvent := handleClose t2.1 false 1006

/-- Scenario: the first retry timer fires; the constructor succeeds but
the attempt will fail to open. -/
def t4 : WebSocketClient × List WSEvent := fireRetryTimer t3.1 false

/-- Scenario: the first retry attempt fails (close without open). -/
def t5 : WebSocketClient × List WSEvent := handleClose t4.1 false 1006

/-- Scenario: the second retry timer fires. -/
def t6 : WebSocketClient × List WSEvent := fireRetryTimer t5.1 false

/-- Scenario: the second retry attempt fails; the scheduler gives up. -/
def t7 : WebSocketClient × List WSEvent := handleClose t6.1 false 1006

/-- All events of the exhaustion scenario in emission order. -/
def traceEvents : List WSEvent :=
  t1.2 ++ t2.2 ++ t3.2 ++ t4.2 ++ t5.2 ++ t6.2 ++ t7.2

/-- The client of the scenario right after the first successful open. -/
def cConnected : WebSocketClient := t2.1

/-- The client of the scenario right after the unexpected drop: state
Reconnecting, attempt 1, one retry timer pending. -/
def cRecon : WebSocketClient := t3.1

theorem reach_cConnected : Reachable "ws://localhost:1234" (some optsA) cConnected :=
  Reachable.step
    (Reachable.step Reachable.init (Step.connectStep c0 false))
    (Step.openStep t1.1 (by decide))

theorem reach_cRecon : Reachable "ws://localhost:1234" (some optsA) cRecon :=
  Reachable.step reach_cConnected (Step.closeStep t2.1 false 1006 (by decide))

/-- Result of `connect` when the transport constructor throws and no timer
was pending: the catch block falls back to Idle, clears the flag, emits
Error and defers to the retry scheduler. -/
theorem connect_throw (c : WebSocketClient)
    (h : ¬(c.state = WebSocketState.Connecting ∨ c.state = WebSocketState.Connected
      ∨ c.state = WebSocketState.Disconnecting))
    (htid : c.reconnectTimeoutId = none) :
    connect c true = ((scheduleReconnect { c with state := WebSocketState.Idle, isReconnectingAttempt := false }).1, WSEvent.Error :: (scheduleReconnect { c with state := WebSocketState.Idle, isReconnectingAttempt := false }).2) := by
  unfold connect
  rw [if_neg h]
  simp only [htid]
  rfl

/-- Result of `connect` when the transport constructor throws while a
timer was pending: the timer is first cancelled inline, then the catch
block runs as in the no-timer case. -/
theorem connect_throw_pending (c : WebSocketClient) (tid : Nat)
    (h : ¬(c.state = WebSocketState.Connecting ∨ c.state = WebSocketState.Connected
      ∨ c.state = WebSocketState.Disconnecting))
    (htid : c.reconnectTimeoutId = some tid) :
    connect c true = ((scheduleReconnect { c with liveTimers := c.liveTimers.filter (fun t => t.id != tid), reconnectTimeoutId := none, state := WebSocketState.Idle, isReconnectingAttempt := false }).1, WSEvent.Error :: (scheduleReconnect { c with liveTimers := c.liveTimers.filter (fun t => t.id != tid), reconnectTimeoutId := none, state := WebSocketState.Idle, isReconnectingAttempt := false }).2) := by
  unfold connect
  rw [if_neg h]
  simp only [htid]
  rfl

/-- The three possible outcomes of the retry scheduler from Idle with no
pending timer, according to the retry policy and the attempt counter. -/
theorem scheduleReconnect_cases (c : WebSocketClient)
    (hst : c.state = WebSocketState.Idle) (htid : c.reconnectTimeoutId = none) :
    (c.reconnectOptions = none →
      scheduleReconnect c = ({ c with isReconnectingAttempt := false }, [])) ∧
    (∀ o, c.reconnectOptions = some o → o.retries ≤ c.reconnectAttempts →
      scheduleReconnect c = ({ c with reconnectAttempts := 0, isReconnectingAttempt := false }, [])) ∧
    (∀ o, c.reconnectOptions = some o → c.reconnectAttempts < o.retries →
      (scheduleReconnect c).1.state = WebSocketState.Reconnecting ∧
      (scheduleReconnect c).1.reconnectTimeoutId = some c.nextTimerId ∧
      (scheduleReconnect c).2 = [WSEvent.Reconnecting (c.reconnectAttempts + 1)]) := by
  refine ⟨fun hn => scheduleReconnect_noopts c hn, ?_, ?_⟩
  · intro o ho hge
    exact scheduleReconnect_giveup c o ho htid (by simp [hst]) hge
  · intro o ho hlt
    rw [scheduleReconnect_schedules c o ho htid (by simp [hst]) hlt]
    exact ⟨rfl, rfl, rfl⟩

/-- Claim C1 (code bug): the spec requires that disconnect() issued while
Reconnecting with a retry pending transitions to Idle, cancels the timer
and prevents the retry from ever firing.  On the code, every reachable
Reconnecting configuration has a null transport handle, so the `!this.ws`
guard makes disconnect() a warning no-op: here, on a concrete reachable
Reconnecting configuration with a pending timer, disconnect() changes
nothing and emits nothing, the timer stays pending, and when it then
fires a new connection attempt is made. -/
theorem disconnect_while_reconnecting_is_noop :
    Reachable "ws://localhost:1234" (some optsA) cRecon ∧
    cRecon.state = WebSocketState.Reconnecting ∧
    cRecon.reconnectTimeoutId.isSome = true ∧
    cRecon.liveTimers = [⟨0, 50⟩] ∧
    disconnect cRecon = (cRecon, []) ∧
    (fireRetryTimer cRecon false).1.state = WebSocketState.Connecting ∧
    (fireRetryTimer cRecon false).1.ws.isSome = true :=
  ⟨reach_cRecon, by decide, by decide, by decide, by decide, by decide, by decide⟩

/-- Claim C2: in every reachable configuration the state is one of the
five enum values and the transport handle is non-null exactly when the
state is Connecting, Connected or Disconnecting; in particular it is null
in Idle and in Reconnecting. -/
theorem state_transport_invariant {url : String} {opts : Option ReconnectOptions}
    {c : WebSocketClient} (h : Reachable url opts c) :
    (c.state = WebSocketState.Idle ∨ c.state = WebSocketState.Connecting
      ∨ c.state = WebSocketState.Connected ∨ c.state = WebSocketState.Reconnecting
      ∨ c.state = WebSocketState.Disconnecting) ∧
    (c.ws.isSome = true ↔ (c.state = WebSocketState.Connecting
      ∨ c.state = WebSocketState.Connected ∨ c.state = WebSocketState.Disconnecting)) ∧
    ((c.state = WebSocketState.Idle ∨ c.state = WebSocketState.Reconnecting) → c.ws = none) := by
  obtain ⟨h1, h2, h3⟩ := reachable_inv h
  refine ⟨?_, h1, ?_⟩
  · cases c.state <;> simp
  · intro hst
    cases hw : c.ws with
    | none => rfl
    | some v =>
        rcases h1.mp (by simp [hw]) with h' | h' | h' <;>
          rcases hst with h'' | h'' <;> rw [h''] at h' <;> exact absurd h' (by simp)

theorem state_transport_invariant_witness :
    cRecon.ws.isSome = true ↔ (cRecon.state = WebSocketState.Connecting
      ∨ cRecon.state = WebSocketState.Connected
      ∨ cRecon.state = WebSocketState.Disconnecting) :=
  (state_transport_invariant reach_cRecon).2.1

/-- Claim C3: with policy maxAttempts 2, baseDelay 50, no growth, and a
transport that always fails to open, one initial drop yields exactly the
events Reconnecting 1 and Reconnecting 2 (each followed by an in-flight
attempt that fails), the give-up step emits nothing beyond the final
Disconnected, and the client ends Idle with counter 0, flag cleared and
no timer pending. -/
theorem retry_exhaustion_trace :
    traceEvents = [WSEvent.Connected,
      WSEvent.Disconnected false 1006, WSEvent.Reconnecting 1,
      WSEvent.Disconnected false 1006, WSEvent.Reconnecting 2,
      WSEvent.Disconnected false 1006] ∧
    t4.1.state = WebSocketState.Connecting ∧ t4.1.ws.isSome = true ∧
    t6.1.state = WebSocketState.Connecting ∧ t6.1.ws.isSome = true ∧
    t7.2 = [WSEvent.Disconnected false 1006] ∧
    t7.1.state = WebSocketState.Idle ∧
    t7.1.reconnectAttempts = 0 ∧
    t7.1.isReconnectingAttempt = false ∧
    t7.1.reconnectTimeoutId = none ∧
    t7.1.liveTimers = [] := by
  decide

/-- Claim C4: in any reachable configuration with a retry scheduled, the
attempt started when the timer fires emits, on a successful open,
Reconnected immediately before Connected and exactly once; a first open
from a fresh client emits nothing at connect time and only Connected at
open time, never Reconnected. -/
theorem reconnected_before_connected {url : String} {opts : Option ReconnectOptions}
    {c : WebSocketClient} (h : Reachable url opts c) (tid : Nat)
    (htid : c.reconnectTimeoutId = some tid) :
    (handleOpen (fireRetryTimer c false).1).2 = [WSEvent.Reconnected, WSEvent.Connected] ∧
    (∀ u o, (connect (init u o) false).2 = [] ∧
      (handleOpen (connect (init u o) false).1).2 = [WSEvent.Connected]) := by
  obtain ⟨h1, h2, h3⟩ := reachable_inv h
  obtain ⟨hst, hfl, d, hd⟩ := h3 tid htid
  constructor
  · rw [fireRetryTimer_eq c tid false htid hst]
    rw [connect_ok { c with liveTimers := c.liveTimers.filter (fun t => t.id != tid), reconnectTimeoutId := none } (by simp [hst]) rfl]
    rw [handleOpen_eq]
    simp [hfl]
  · intro u o
    refine ⟨?_, ?_⟩
    · rw [connect_ok (init u o) (by simp [init]) rfl]
    · rw [connect_ok (init u o) (by simp [init]) rfl, handleOpen_eq]
      simp [init]

theorem reconnected_before_connected_witness :
    cRecon.reconnectTimeoutId = some 0 ∧
    (handleOpen (fireRetryTimer cRecon false).1).2 = [WSEvent.Reconnected, WSEvent.Connected] ∧
    (handleOpen (connect (init "u" none) false).1).2 = [WSEvent.Connected] :=
  ⟨by decide, (reconnected_before_connected reach_cRecon 0 (by decide)).1,
    ((reconnected_before_connected reach_cRecon 0 (by decide)).2 "u" none).2⟩

/-- Claim C5: in every reachable configuration at most one live timer
exists, and a connect() proceeding while a retry timer is pending cancels
that timer before owning the new transport handle: after it, no live
timer remains and a fresh transport is owned. -/
theorem at_most_one_pending_timer {url : String} {opts : Option ReconnectOptions}
    {c : WebSocketClient} (h : Reachable url opts c) :
    c.liveTimers.length ≤ 1 ∧
    (∀ tid, c.reconnectTimeoutId = some tid →
      (connect c false).1.liveTimers = [] ∧ (connect c false).1.ws = some c.nextWsId) := by
  obtain ⟨h1, h2, h3⟩ := reachable_inv h
  constructor
  · cases htid : c.reconnectTimeoutId with
    | none => rw [h2 htid]; simp
    | some tid =>
        obtain ⟨_, _, d, hd⟩ := h3 tid htid
        rw [hd]; simp
  · intro tid htid
    obtain ⟨hst, hfl, d, hd⟩ := h3 tid htid
    rw [connect_ok_pending c tid (by simp [hst]) htid]
    constructor
    · show c.liveTimers.filter (fun t => t.id != tid) = []
      rw [hd]; simp [List.filter]
    · rfl

theorem at_most_one_pending_timer_witness :
    cRecon.reconnectTimeoutId = some 0 ∧
    cRecon.liveTimers.length ≤ 1 ∧
    (connect cRecon false).1.liveTimers = [] ∧
    (connect cRecon false).1.ws = some cRecon.nextWsId :=
  ⟨by decide, (at_most_one_pending_timer reach_cRecon).1,
    ((at_most_one_pending_timer reach_cRecon).2 0 (by decide)).1,
    ((at_most_one_pending_timer reach_cRecon).2 0 (by decide)).2⟩

/-- Claim C6: a synchronous throw of the transport constructor inside
connect() is absorbed: the first event is an Error notification, and the
retry scheduler then runs on the client already returned to Idle — with
no policy the client stays Idle with only the Error event, below max
attempts a retry is scheduled (Reconnecting state, pending timer,
Reconnecting event after the Error), and at max attempts the client
stays Idle with the counter reset and only the Error event. -/
theorem connect_absorbs_ctor_throw (c : WebSocketClient)
    (h : c.state = WebSocketState.Idle ∨ c.state = WebSocketState.Reconnecting) :
    (connect c true).2.head? = some WSEvent.Error ∧
    (c.reconnectOptions = none →
      (connect c true).1.state = WebSocketState.Idle ∧ (connect c true).2 = [WSEvent.Error]) ∧
    (∀ o, c.reconnectOptions = some o → c.reconnectAttempts < o.retries →
      (connect c true).1.state = WebSocketState.Reconnecting ∧
      (connect c true).1.reconnectTimeoutId = some c.nextTimerId ∧
      (connect c true).2 = [WSEvent.Error, WSEvent.Reconnecting (c.reconnectAttempts + 1)]) ∧
    (∀ o, c.reconnectOptions = some o → o.retries ≤ c.reconnectAttempts →
      (connect c true).1.state = WebSocketState.Idle ∧
      (connect c true).1.reconnectAttempts = 0 ∧ (connect c true).2 = [WSEvent.Error]) := by
  have hguard : ¬(c.state = WebSocketState.Connecting ∨ c.state = WebSocketState.Connected
      ∨ c.state = WebSocketState.Disconnecting) := by
    rcases h with h' | h' <;> simp [h']
  cases htid : c.reconnectTimeoutId with
  | none =>
      rw [connect_throw c hguard htid]
      obtain ⟨k1, k2, k3⟩ := scheduleReconnect_cases { c with state := WebSocketState.Idle, isReconnectingAttempt := false } rfl htid
      refine ⟨rfl, fun hn => ?_, fun o ho hlt => ?_, fun o ho hge => ?_⟩
      · rw [k1 hn]; exact ⟨rfl, rfl⟩
      · obtain ⟨s1, s2, s3⟩ := k3 o ho hlt
        exact ⟨s1, s2, by rw [s3]⟩
      · rw [k2 o ho hge]; exact ⟨rfl, rfl, rfl⟩
  | some tid =>
      rw [connect_throw_pending c tid hguard htid]
      obtain ⟨k1, k2, k3⟩ := scheduleReconnect_cases { c with liveTimers := c.liveTimers.filter (fun t => t.id != tid), reconnectTimeoutId := none, state := WebSocketState.Idle, isReconnectingAttempt := false } rfl rfl
      refine ⟨rfl, fun hn => ?_, fun o ho hlt => ?_, fun o ho hge => ?_⟩
      · rw [k1 hn]; exact ⟨rfl, rfl⟩
      · obtain ⟨s1, s2, s3⟩ := k3 o ho hlt
        exact ⟨s1, s2, by rw [s3]⟩
      · rw [k2 o ho hge]; exact ⟨rfl, rfl, rfl⟩

theorem connect_absorbs_ctor_throw_witness :
    ((c0.state = WebSocketState.Idle ∨ c0.state = WebSocketState.Reconnecting) ∧
      c0.reconnectOptions = some optsA ∧ c0.reconnectAttempts < optsA.retries) ∧
    (connect c0 true).2.head? = some WSEvent.Error ∧
    (connect c0 true).1.state = WebSocketState.Reconnecting ∧
    (connect c0 true).2 = [WSEvent.Error, WSEvent.Reconnecting 1] :=
  ⟨⟨Or.inl (by decide), by decide, by decide⟩,
    (connect_absorbs_ctor_throw c0 (Or.inl (by decide))).1,
    ((connect_absorbs_ctor_throw c0 (Or.inl (by decide))).2.2.1 optsA (by decide) (by decide)).1,
    ((connect_absorbs_ctor_throw c0 (Or.inl (by decide))).2.2.1 optsA (by decide) (by decide)).2.2⟩

/-- Claim C7: in every reachable configuration, send outside Connected is
a complete no-op (no state change, no events, and it never throws since
it is a total function); in Connected, a throwing transport send yields
exactly one Error notification and no state change, and a successful
send changes nothing. -/
theorem send_only_when_connected {url : String} {opts : Option ReconnectOptions}
    {c : WebSocketClient} (h : Reachable url opts c) :
    (∀ b, c.state ≠ WebSocketState.Connected → sendMessage c b = (c, [])) ∧
    (c.state = WebSocketState.Connected →
      sendMessage c true = (c, [WSEvent.Error]) ∧ sendMessage c false = (c, [])) := by
  obtain ⟨h1, _, _⟩ := reachable_inv h
  constructor
  · intro b hne
    unfold sendMessage
    rw [if_pos (Or.inl hne)]
  · intro hst
    have hws : c.ws.isNone = false := by
      have hs : c.ws.isSome = true := h1.mpr (Or.inr (Or.inl hst))
      cases hw : c.ws with
      | none => rw [hw] at hs; exact absurd hs (by simp)
      | some v => simp
    have hguard : ¬(¬(c.state = WebSocketState.Connected) ∨ c.ws.isNone = true) := by
      simp [hst, hws]
    constructor
    · unfold sendMessage; rw [if_neg hguard, if_pos rfl]
    · unfold sendMessage; rw [if_neg hguard]; rfl

theorem send_only_when_connected_witness :
    cConnected.state = WebSocketState.Connected ∧
    sendMessage cConnected true = (cConnected, [WSEvent.Error]) ∧
    sendMessage cConnected false = (cConnected, []) ∧
    sendMessage cRecon true = (cRecon, []) :=
  ⟨by decide, ((send_only_when_connected reach_cConnected).2 (by decide)).1,
    ((send_only_when_connected reach_cConnected).2 (by decide)).2,
    (send_only_when_connected reach_cRecon).1 true (by decide)⟩

/-- Claim C8: connect() from Connecting, Connected or Disconnecting is a
complete no-op: client unchanged (state, counter, flag, timers, handle)
and no events emitted. -/
theorem connect_noop_when_active (c : WebSocketClient) (b : Bool)
    (h : c.state = WebSocketState.Connecting ∨ c.state = WebSocketState.Connected
      ∨ c.state = WebSocketState.Disconnecting) :
    connect c b = (c, []) := by
  unfold connect
  rw [if_pos h]

theorem connect_noop_when_active_witness :
    (cConnected.state = WebSocketState.Connecting
      ∨ cConnected.state = WebSocketState.Connected
      ∨ cConnected.state = WebSocketState.Disconnecting) ∧
    connect cConnected true = (cConnected, []) :=
  ⟨Or.inr (Or.inl (by decide)),
    connect_noop_when_active cConnected true (Or.inr (Or.inl (by decide)))⟩

/-- Claim C9: when the scheduler schedules attempt k = attemptCount + 1,
the timer delay is baseDelay * k when growDelay is set and baseDelay
otherwise; in particular with growDelay and baseDelay 50 it is 50 * k. -/
theorem retry_delay_formula (c : WebSocketClient) (o : ReconnectOptions)
    (h1 : c.reconnectOptions = some o) (h2 : c.reconnectTimeoutId = none)
    (h3 : c.state ≠ WebSocketState.Disconnecting)
    (h4 : c.reconnectAttempts < o.retries) :
    (scheduleReconnect c).1.liveTimers = c.liveTimers ++ [⟨c.nextTimerId, if o.increaseDelay = true then o.delay * (c.reconnectAttempts + 1) else o.delay⟩] ∧
    (scheduleReconnect c).1.reconnectAttempts = c.reconnectAttempts + 1 ∧
    (o.increaseDelay = true → o.delay = 50 →
      (scheduleReconnect c).1.liveTimers = c.liveTimers ++ [⟨c.nextTimerId, 50 * (c.reconnectAttempts + 1)⟩]) := by
  rw [scheduleReconnect_schedules c o h1 h2 h3 h4]
  refine ⟨rfl, rfl, ?_⟩
  intro hi hd
  simp [hi, hd]

theorem retry_delay_formula_witness :
    ((init "u" (some ⟨3, 50, true⟩)).reconnectOptions = some ⟨3, 50, true⟩ ∧
      (init "u" (some ⟨3, 50, true⟩)).reconnectTimeoutId = none ∧
      (init "u" (some ⟨3, 50, true⟩)).state ≠ WebSocketState.Disconnecting ∧
      (init "u" (some ⟨3, 50, true⟩)).reconnectAttempts < (3 : Nat)) ∧
    (scheduleReconnect (init "u" (some ⟨3, 50, true⟩))).1.liveTimers
      = (init "u" (some ⟨3, 50, true⟩)).liveTimers ++ [⟨(init "u" (some ⟨3, 50, true⟩)).nextTimerId, 50 * ((init "u" (some ⟨3, 50, true⟩)).reconnectAttempts + 1)⟩] :=
  ⟨⟨by decide, by decide, by decide, by decide⟩,
    (retry_delay_formula (init "u" (some ⟨3, 50, true⟩)) ⟨3, 50, true⟩
      (by decide) (by decide) (by decide) (by decide)).2.2 rfl rfl⟩

/-- Claim C10: connect() called manually while Reconnecting with a retry
pending is not a no-op: it cancels the pending timer, owns a fresh
transport, leaves the reconnect flag set (the inline timer clearing does
not touch it), so a subsequent successful open still emits Reconnected
immediately before Connected. -/
theorem manual_connect_while_reconnecting {url : String} {opts : Option ReconnectOptions}
    {c : WebSocketClient} (h : Reachable url opts c) (tid : Nat)
    (hst : c.state = WebSocketState.Reconnecting)
    (htid : c.reconnectTimeoutId = some tid) :
    (connect c false).1.state = WebSocketState.Connecting ∧
    (connect c false).1.ws = some c.nextWsId ∧
    (connect c false).1.reconnectTimeoutId = none ∧
    (connect c false).1.liveTimers = [] ∧
    (connect c false).1.isReconnectingAttempt = true ∧
    (connect c false).2 = [] ∧
    (handleOpen (connect c false).1).2 = [WSEvent.Reconnected, WSEvent.Connected] := by
  obtain ⟨h1, h2, h3⟩ := reachable_inv h
  obtain ⟨_, hfl, d, hd⟩ := h3 tid htid
  rw [connect_ok_pending c tid (by simp [hst]) htid]
  refine ⟨rfl, rfl, rfl, ?_, hfl, rfl, ?_⟩
  · show c.liveTimers.filter (fun t => t.id != tid) = []
    rw [hd]; simp [List.filter]
  · rw [handleOpen_eq]
    simp [hfl]

theorem manual_connect_while_reconnecting_witness :
    (cRecon.state = WebSocketState.Reconnecting ∧ cRecon.reconnectTimeoutId = some 0) ∧
    (connect cRecon false).1.state = WebSocketState.Connecting ∧
    (handleOpen (connect cRecon false).1).2 = [WSEvent.Reconnected, WSEvent.Connected] :=
  ⟨⟨by decide, by decide⟩,
    (manual_connect_while_reconnecting reach_cRecon 0 (by decide) (by decide)).1,
    (manual_connect_while_reconnecting reach_cRecon 0 (by decide) (by decide)).2.2.2.2.2.2⟩

end WSClient
